import Mathlib

/-!
Shallow embedding of the Angular todo-list controller
(`src/Todo/src/app/app.ts`, class `App`).

The component state (Angular signals) becomes an explicit `AppState` record.
Each async operation becomes a pure function from the pre-state and the
outcome of its single network round-trip to the post-state; operations that
are guarded (`addTodo`, `saveEdit`) additionally return the request they
issued, `none` meaning no network call was made.  `Math.random()*3` floored
always lands in `{0,1,2}`, so the random priority draw is modelled by an
oracle `prio : Nat → Priority` giving the draw for each list index.
JavaScript `String.prototype.trim` is modelled by `jsTrim` (strip leading
and trailing whitespace).
-/

namespace TodoApp

inductive Priority where
  | low
  | medium
  | high
deriving DecidableEq

inductive Filter where
  | all
  | completed
  | pending
deriving DecidableEq

/-- Shape of a todo item held in the local list (`interface Todo`). -/
structure Todo where
  id : Int
  title : String
  completed : Bool
  priority : Priority
  userId : Int
deriving DecidableEq

/-- Shape of an item as returned by the remote API (no `priority` field). -/
structure ApiTodo where
  id : Int
  title : String
  completed : Bool
  userId : Int
deriving DecidableEq

/-- The component's signal fields (class `App`). -/
structure AppState where
  todos : List Todo
  loading : Bool
  error : String
  newTodoText : String
  newTodoPriority : Priority
  currentFilter : Filter
  sortByPriority : Bool
  editingId : Option Int
  editText : String
  editPriority : Priority
deriving DecidableEq

/-- Network request descriptors, recording what the code sends. -/
inductive Request where
  | getLimited (limit : Nat)
  | post (title : String) (completed : Bool) (priority : Priority) (userId : Int)
  | patchCompleted (id : Int) (completed : Bool)
  | deleteById (id : Int)
  | patchTitlePriority (id : Int) (title : String) (priority : Priority)
deriving DecidableEq

/-- Outcome of `loadTodos`'s round-trip: the `try` block either throws
(fetch rejects, `json()` throws, or `.map` is applied to a non-array) or
yields a parsed array of items. -/
inductive LoadOutcome where
  | err
  | ok (items : List ApiTodo)
deriving DecidableEq

/-- Outcome of `addTodo`'s round-trip: fetch throws, response not ok,
response ok but `json()` throws (malformed payload), or a parsed item. -/
inductive CreateOutcome where
  | throwErr
  | notOk
  | badJson
  | ok (created : ApiTodo)
deriving DecidableEq

/-- Outcome for `toggleTodo` / `deleteTodo` / `saveEdit`, which never parse
the response body: fetch throws, response not ok, or response ok. -/
inductive SimpleOutcome where
  | throwErr
  | notOk
  | ok
deriving DecidableEq

/-- JavaScript `String.prototype.trim`: strip leading and trailing
whitespace. -/
def jsTrim (s : String) : String :=
  String.mk (((s.data.dropWhile Char.isWhitespace).reverse.dropWhile
    Char.isWhitespace).reverse)

/-- The `apiTodos.map(todo => ({...todo, priority: randomDraw}))` step of
`loadTodos`, with the random draw for index `i` given by `prio i`. -/
def assignPriorities (prio : Nat → Priority) : Nat → List ApiTodo → List Todo
  | _, [] => []
  | i, t :: ts =>
      { id := t.id, title := t.title, completed := t.completed,
        priority := prio i, userId := t.userId } :: assignPriorities prio (i + 1) ts

/-- First half of `loadTodos`: `loading.set(true); error.set('')`. -/
def loadTodosStart (s : AppState) : AppState :=
  { s with loading := true, error := "" }

/-- Second half of `loadTodos`: the `try/catch/finally`. -/
def loadTodosFinish (s : AppState) (res : LoadOutcome) (prio : Nat → Priority) :
    AppState :=
  match res with
  | .err => { s with error := "Failed to load todos", loading := false }
  | .ok items => { s with todos := assignPriorities prio 0 items, loading := false }

/-- Whole `loadTodos` run, from pre-state and round-trip outcome. -/
def loadTodos (s : AppState) (res : LoadOutcome) (prio : Nat → Priority) :
    AppState :=
  loadTodosFinish (loadTodosStart s) res prio

/-- The `addTodo` method.  Returns the post-state and the request issued
(`none` when the empty-title guard fires before any fetch). -/
def addTodo (s : AppState) (res : CreateOutcome) : AppState × Option Request :=
  let text := jsTrim s.newTodoText
  if text = "" then (s, none)
  else
    let s1 := { s with loading := true }
    let req := Request.post text false s.newTodoPriority 1
    match res with
    | .ok created =>
        ({ s1 with
            todos := s1.todos ++
              [{ id := created.id, title := created.title,
                 completed := created.completed, priority := s.newTodoPriority,
                 userId := created.userId }],
            newTodoText := "", newTodoPriority := .medium,
            loading := false }, some req)
    | .notOk => ({ s1 with loading := false }, some req)
    | .badJson =>
        ({ s1 with error := "Failed to add todo", loading := false }, some req)
    | .throwErr =>
        ({ s1 with error := "Failed to add todo", loading := false }, some req)

/-- The local list update of `toggleTodo`:
`current.map(t => t.id === todo.id ? {...t, completed: !t.completed} : t)`. -/
def toggleLocal (l : List Todo) (id : Int) : List Todo :=
  l.map (fun t => if t.id = id then { t with completed := !t.completed } else t)

/-- The `toggleTodo` method. -/
def toggleTodo (s : AppState) (todo : Todo) (res : SimpleOutcome) : AppState :=
  match res with
  | .ok => { s with todos := toggleLocal s.todos todo.id }
  | _ => s

/-- The `deleteTodo` method. -/
def deleteTodo (s : AppState) (id : Int) (res : SimpleOutcome) : AppState :=
  match res with
  | .ok => { s with todos := s.todos.filter (fun t => t.id != id) }
  | _ => s

/-- The `startEdit` method (purely local). -/
def startEdit (s : AppState) (todo : Todo) : AppState :=
  { s with editingId := some todo.id, editText := todo.title,
           editPriority := todo.priority }

/-- The `cancelEdit` method (purely local). -/
def cancelEdit (s : AppState) : AppState :=
  { s with editingId := none, editText := "" }

/-- The local list update of `saveEdit`:
`current.map(todo => todo.id === id ? {...todo, title, priority} : todo)`. -/
def editLocal (l : List Todo) (id : Int) (title : String) (p : Priority) :
    List Todo :=
  l.map (fun t => if t.id = id then { t with title := title, priority := p } else t)

/-- The `saveEdit` method.  The guard `if (!id) return` fires when
`editingId` is `null` and also when it is the number `0` (both falsy). -/
def saveEdit (s : AppState) (res : SimpleOutcome) : AppState × Option Request :=
  match s.editingId with
  | none => (s, none)
  | some id =>
      if id = 0 then (s, none)
      else
        let req := Request.patchTitlePriority id s.editText s.editPriority
        match res with
        | .ok =>
            (cancelEdit
              { s with todos := editLocal s.todos id s.editText s.editPriority },
             some req)
        | _ => (s, some req)

/-- Numeric rank used by the sort comparator (`priorityOrder`). -/
def priorityOrder : Priority → Nat
  | .high => 3
  | .medium => 2
  | .low => 1

/-- The filtering stage of `filteredAndSortedTodos`. -/
def filterTodos (s : AppState) : List Todo :=
  match s.currentFilter with
  | .completed => s.todos.filter (fun t => t.completed)
  | .pending => s.todos.filter (fun t => !t.completed)
  | .all => s.todos

/-- Comparator `(a, b) => priorityOrder[b.priority] - priorityOrder[a.priority]`,
as the boolean "a may come before b" relation of a stable sort. -/
def priorityLe (a b : Todo) : Bool :=
  priorityOrder b.priority ≤ priorityOrder a.priority

/-- The `filteredAndSortedTodos` derived view.  JavaScript `Array.sort` is a
stable sort (ES2019), modelled by `List.mergeSort`. -/
def filteredAndSortedTodos (s : AppState) : List Todo :=
  let filtered := filterTodos s
  if s.sortByPriority then filtered.mergeSort priorityLe else filtered

/-- Pairwise-distinct `id`s in the local list (the spec's invariant). -/
def idsNodup (l : List Todo) : Prop :=
  (l.map Todo.id).Nodup

instance (l : List Todo) : Decidable (idsNodup l) := by
  unfold idsNodup; infer_instance

/-- Concrete base state used by counterexamples and witnesses. -/
def baseState : AppState :=
  { todos := [], loading := false, error := "", newTodoText := "",
    newTodoPriority := .medium, currentFilter := .all, sortByPriority := false,
    editingId := none, editText := "", editPriority := .medium }

/-- Concrete item as the API would return it. -/
def exApi : ApiTodo :=
  { id := 1, title := "walk the dog", completed := false, userId := 1 }

/-- Priority oracle that always draws `high`. -/
def exPrio : Nat → Priority := fun _ => Priority.high

/-- The item `exApi` becomes after a load under the oracle `exPrio`. -/
def exLoaded : Todo :=
  { id := 1, title := "walk the dog", completed := false,
    priority := .high, userId := 1 }

/-- Concrete local item used by toggle and duplicate-id scenarios. -/
def exTodo201 : Todo :=
  { id := 201, title := "buy milk", completed := false,
    priority := .low, userId := 1 }

/-- Concrete state with a non-empty draft title. -/
def draftState : AppState := { baseState with newTodoText := "buy milk" }

/-- Concrete state holding `exTodo201` and a non-empty draft title. -/
def dupState : AppState :=
  { baseState with todos := [exTodo201], newTodoText := "buy bread" }

/-- Concrete state holding `exTodo201` and a fresh draft title. -/
def freshState : AppState :=
  { baseState with todos := [exTodo201], newTodoText := "walk the dog" }

/-- Concrete state holding just `exTodo201`. -/
def oneState : AppState := { baseState with todos := [exTodo201] }

/-- Concrete state with the pending filter selected. -/
def pendState : AppState :=
  { baseState with todos := [exTodo201], currentFilter := .pending }

/-- Concrete state with the priority sort enabled. -/
def sortState : AppState :=
  { baseState with todos := [exTodo201], sortByPriority := true }

/-- Concrete state whose item under edit has id 0. -/
def editZeroState : AppState := { baseState with editingId := some 0 }

/-- Concrete state with a whitespace-only draft title. -/
def blankState : AppState := { baseState with newTodoText := "   " }

/-- Helper: `assignPriorities` keeps the ids of the fetched items. -/
theorem assignPriorities_map_id (prio : Nat → Priority) (n : Nat)
    (items : List ApiTodo) :
    (assignPriorities prio n items).map Todo.id = items.map ApiTodo.id := by
  induction items generalizing n with
  | nil => rfl
  | cons t ts ih => simp [assignPriorities, ih]

/-- Helper: `assignPriorities` keeps the length of the fetched list. -/
theorem assignPriorities_length (prio : Nat → Priority) (n : Nat)
    (items : List ApiTodo) :
    (assignPriorities prio n items).length = items.length := by
  induction items generalizing n with
  | nil => rfl
  | cons t ts ih => simp [assignPriorities, ih]

/-- Helper: toggling does not change any item's id. -/
theorem toggleLocal_map_id (l : List Todo) (i : Int) :
    (toggleLocal l i).map Todo.id = l.map Todo.id := by
  unfold toggleLocal
  rw [List.map_map]
  apply List.map_congr_left
  intro t _
  by_cases h : t.id = i <;> simp [h]

/-- Helper: editing does not change any item's id. -/
theorem editLocal_map_id (l : List Todo) (i : Int) (title : String)
    (p : Priority) :
    (editLocal l i title p).map Todo.id = l.map Todo.id := by
  unfold editLocal
  rw [List.map_map]
  apply List.map_congr_left
  intro t _
  by_cases h : t.id = i <;> simp [h]

/-- Helper: toggling the same id twice restores the list. -/
theorem toggleLocal_toggleLocal (l : List Todo) (i : Int) :
    toggleLocal (toggleLocal l i) i = l := by
  induction l with
  | nil => rfl
  | cons t ts ih =>
      by_cases h : t.id = i
      · simp [toggleLocal, h, Bool.not_not] at ih ⊢
        exact ⟨by rw [← h], ih⟩
      · simp [toggleLocal, h] at ih ⊢
        exact ih

/-- C3: a failing Load sets the error flag and leaves the prior list
untouched; the loading flag is true during the call and false afterwards,
whatever the outcome. -/
theorem loadTodos_failure_spec (s : AppState) (prio : Nat → Priority) :
    (loadTodosStart s).loading = true ∧
    (loadTodos s .err prio).error = "Failed to load todos" ∧
    (loadTodos s .err prio).todos = s.todos ∧
    ∀ res, (loadTodos s res prio).loading = false := by
  refine ⟨rfl, rfl, rfl, fun res => ?_⟩
  cases res <;> rfl

/-- C4: a successful Load of N items replaces the local list with exactly N
items (independent of the prior contents), and every resulting priority is
low, medium or high. -/
theorem loadTodos_success_spec (s : AppState) (items : List ApiTodo)
    (prio : Nat → Priority) :
    (loadTodos s (.ok items) prio).todos.length = items.length ∧
    (loadTodos s (.ok items) prio).todos = assignPriorities prio 0 items ∧
    ∀ t, t ∈ (loadTodos s (.ok items) prio).todos →
      t.priority = Priority.low ∨ t.priority = Priority.medium ∨
        t.priority = Priority.high := by
  refine ⟨?_, rfl, fun t _ => ?_⟩
  · simp [loadTodos, loadTodosFinish, loadTodosStart, assignPriorities_length]
  · cases h : t.priority <;> simp

/-- Witness for C4 at a concrete load. -/
theorem loadTodos_success_witness :
    exLoaded ∈ (loadTodos baseState (.ok [exApi]) exPrio).todos ∧
    (exLoaded.priority = Priority.low ∨ exLoaded.priority = Priority.medium ∨
      exLoaded.priority = Priority.high) :=
  ⟨by decide,
   (loadTodos_success_spec baseState [exApi] exPrio).2.2 exLoaded (by decide)⟩

/-- C5: Create with an empty or whitespace-only title makes no network call
and changes nothing at all, whatever the would-be outcome. -/
theorem addTodo_empty_noop (s : AppState) (res : CreateOutcome)
    (h : jsTrim s.newTodoText = "") :
    addTodo s res = (s, none) := by
  simp [addTodo, h]

/-- Witness for C5 at a whitespace-only title. -/
theorem addTodo_empty_noop_witness :
    jsTrim blankState.newTodoText = "" ∧
    addTodo blankState .throwErr = (blankState, none) :=
  ⟨by decide, addTodo_empty_noop blankState .throwErr (by decide)⟩

/-- C10: Save Edit is a complete no-op, with no network call, when no item
is being edited and also when the item under edit has id 0, since the falsy
guard treats 0 like null. -/
theorem saveEdit_falsy_guard (s : AppState) (res : SimpleOutcome)
    (h : s.editingId = none ∨ s.editingId = some 0) :
    saveEdit s res = (s, none) := by
  rcases h with h | h <;> simp [saveEdit, h]

/-- C1 counterexample: with a non-empty trimmed title, a non-2xx response is
a failure after which the error flag is NOT set to the generic message (the
code only checks `response.ok` and silently does nothing). -/
theorem addTodo_notOk_silent_cex :
    jsTrim draftState.newTodoText ≠ "" ∧
    (addTodo draftState .notOk).1.todos = draftState.todos ∧
    (addTodo draftState .notOk).1.error ≠ "Failed to add todo" := by
  decide

/-- C1 amended: with a non-empty trimmed title, a thrown request or a
malformed payload sets the generic error message, while a non-2xx response
leaves the error flag unchanged; in every failure case the local list is
unchanged. -/
theorem addTodo_failure_spec (s : AppState) (h : jsTrim s.newTodoText ≠ "") :
    ((addTodo s .throwErr).1.error = "Failed to add todo" ∧
     (addTodo s .badJson).1.error = "Failed to add todo") ∧
    ((addTodo s .throwErr).1.todos = s.todos ∧
     (addTodo s .badJson).1.todos = s.todos ∧
     (addTodo s .notOk).1.todos = s.todos) ∧
    (addTodo s .notOk).1.error = s.error := by
  refine ⟨⟨?_, ?_⟩, ⟨?_, ?_, ?_⟩, ?_⟩ <;> simp [addTodo, h]

/-- Witness for the amended C1 at a concrete thrown request. -/
theorem addTodo_failure_witness :
    jsTrim draftState.newTodoText ≠ "" ∧
    (addTodo draftState .throwErr).1.error = "Failed to add todo" :=
  ⟨by decide, (addTodo_failure_spec draftState (by decide)).1.1⟩

/-- C2 counterexample: a successful Create whose server-assigned id collides
with an existing local id (the stub API always answers id 201) breaks the
uniqueness invariant. -/
theorem create_duplicate_id_cex :
    idsNodup dupState.todos ∧
    jsTrim dupState.newTodoText ≠ "" ∧
    ¬ idsNodup (addTodo dupState
        (.ok { id := 201, title := "buy bread", completed := false,
               userId := 1 })).1.todos := by
  decide

/-- C2 amended: Toggle, Delete and Save Edit preserve pairwise-distinct ids
unconditionally; a successful Load yields distinct ids provided the fetched
payload has distinct ids; a successful Create preserves them provided the
server-assigned id is not already in the list. -/
theorem ids_nodup_preserved (s : AppState) (todo : Todo) (id : Int)
    (items : List ApiTodo) (prio : Nat → Priority) (created : ApiTodo)
    (res : SimpleOutcome) (h : idsNodup s.todos) :
    ((items.map ApiTodo.id).Nodup →
      idsNodup (loadTodos s (.ok items) prio).todos) ∧
    (created.id ∉ s.todos.map Todo.id →
      idsNodup (addTodo s (.ok created)).1.todos) ∧
    idsNodup (toggleTodo s todo res).todos ∧
    idsNodup (deleteTodo s id res).todos ∧
    idsNodup (saveEdit s res).1.todos := by
  refine ⟨?_, ?_, ?_, ?_, ?_⟩
  · intro hn
    have hv : (loadTodos s (.ok items) prio).todos =
        assignPriorities prio 0 items := rfl
    unfold idsNodup
    rw [hv, assignPriorities_map_id]
    exact hn
  · intro hmem
    by_cases hg : jsTrim s.newTodoText = ""
    · simpa [addTodo, hg] using h
    · have hv : (addTodo s (.ok created)).1.todos =
          s.todos ++ [{ id := created.id, title := created.title,
                        completed := created.completed,
                        priority := s.newTodoPriority,
                        userId := created.userId }] := by
        simp [addTodo, hg]
      unfold idsNodup
      rw [hv]
      simp only [List.map_append, List.map_cons, List.map_nil]
      rw [List.nodup_append]
      exact ⟨h, List.nodup_singleton _, by simpa using hmem⟩
  · cases res with
    | ok =>
        have hv : (toggleTodo s todo .ok).todos =
            toggleLocal s.todos todo.id := rfl
        unfold idsNodup
        rw [hv, toggleLocal_map_id]
        exact h
    | notOk => exact h
    | throwErr => exact h
  · cases res with
    | ok =>
        have hsub : List.Sublist
            ((s.todos.filter (fun t => t.id != id)).map Todo.id)
            (s.todos.map Todo.id) := (List.filter_sublist _).map Todo.id
        exact h.sublist hsub
    | notOk => exact h
    | throwErr => exact h
  · rcases hE : s.editingId with _ | i
    · simpa [saveEdit, hE] using h
    · by_cases hi : i = 0
      · simpa [saveEdit, hE, hi] using h
      · cases res with
        | ok =>
            have hv : (saveEdit s .ok).1.todos =
                editLocal s.todos i s.editText s.editPriority := by
              simp [saveEdit, hE, hi, cancelEdit]
            unfold idsNodup
            rw [hv, editLocal_map_id]
            exact h
        | notOk => simpa [saveEdit, hE, hi] using h
        | throwErr => simpa [saveEdit, hE, hi] using h

/-- Witness for the amended C2: creating with a fresh server id keeps the
ids distinct. -/
theorem ids_nodup_preserved_witness :
    idsNodup freshState.todos ∧
    idsNodup (addTodo freshState (.ok exApi)).1.todos :=
  ⟨by decide,
   (ids_nodup_preserved freshState exTodo201 201 [] exPrio exApi .ok
     (by decide)).2.1 (by decide)⟩

/-- C6: a successful Toggle of X flips the completed flag of the matching
position and changes nothing else there, leaves non-matching positions
untouched, keeps the length, and composed with itself restores the whole
state. -/
theorem toggle_flip_spec (s : AppState) (X : Todo) (i : Nat)
    (hi : i < s.todos.length) :
    (toggleTodo s X .ok).todos.length = s.todos.length ∧
    (∀ hj : i < (toggleTodo s X .ok).todos.length,
      ((s.todos.get ⟨i, hi⟩).id = X.id →
        (toggleTodo s X .ok).todos.get ⟨i, hj⟩ =
          { s.todos.get ⟨i, hi⟩ with
              completed := !(s.todos.get ⟨i, hi⟩).completed }) ∧
      ((s.todos.get ⟨i, hi⟩).id ≠ X.id →
        (toggleTodo s X .ok).todos.get ⟨i, hj⟩ = s.todos.get ⟨i, hi⟩)) ∧
    toggleTodo (toggleTodo s X .ok) X .ok = s := by
  have hT : (toggleTodo s X .ok).todos = toggleLocal s.todos X.id := rfl
  refine ⟨?_, fun hj => ⟨fun hid => ?_, fun hid => ?_⟩, ?_⟩
  · rw [hT]; simp [toggleLocal]
  · simp only [hT, toggleLocal, List.get_eq_getElem, List.getElem_map] at *
    rw [if_pos hid]
  · simp only [hT, toggleLocal, List.get_eq_getElem, List.getElem_map] at *
    rw [if_neg hid]
  · have hv : toggleTodo (toggleTodo s X .ok) X .ok =
        { s with todos := toggleLocal (toggleLocal s.todos X.id) X.id } := rfl
    rw [hv, toggleLocal_toggleLocal]

/-- Witness for C6: double toggle on a concrete one-item list. -/
theorem toggle_flip_witness :
    0 < oneState.todos.length ∧
    toggleTodo (toggleTodo oneState exTodo201 .ok) exTodo201 .ok = oneState :=
  ⟨by decide, (toggle_flip_spec oneState exTodo201 0 (by decide)).2.2⟩

/-- C7: with the priority sort disabled, the derived view is exactly the
completion-status filter of the list, in the original order. -/
theorem filtered_view_spec (s : AppState) (h : s.sortByPriority = false) :
    (s.currentFilter = .completed →
      filteredAndSortedTodos s = s.todos.filter (fun t => t.completed)) ∧
    (s.currentFilter = .pending →
      filteredAndSortedTodos s = s.todos.filter (fun t => !t.completed)) ∧
    (s.currentFilter = .all → filteredAndSortedTodos s = s.todos) ∧
    (∀ t, t ∈ filteredAndSortedTodos s ↔
      (t ∈ s.todos ∧ (s.currentFilter = .completed → t.completed = true) ∧
        (s.currentFilter = .pending → t.completed = false))) := by
  have hv : filteredAndSortedTodos s = filterTodos s := by
    simp [filteredAndSortedTodos, h]
  refine ⟨fun hc => ?_, fun hc => ?_, fun hc => ?_, fun t => ?_⟩
  · rw [hv]; simp [filterTodos, hc]
  · rw [hv]; simp [filterTodos, hc]
  · rw [hv]; simp [filterTodos, hc]
  · rw [hv]
    cases hc : s.currentFilter <;>
      simp [filterTodos, hc, List.mem_filter]

/-- Witness for C7 at a concrete pending view. -/
theorem filtered_view_witness :
    pendState.sortByPriority = false ∧
    filteredAndSortedTodos pendState = [exTodo201] :=
  ⟨by decide,
   ((filtered_view_spec pendState (by decide)).2.1 (by decide)).trans
     (by decide)⟩

/-- C8: with the priority sort enabled, the derived view is ordered
non-increasingly by priority rank and is a permutation of the filtered
items. -/
theorem sorted_view_spec (s : AppState) (h : s.sortByPriority = true) :
    (filteredAndSortedTodos s).Pairwise
      (fun a b => priorityOrder b.priority ≤ priorityOrder a.priority) ∧
    (filteredAndSortedTodos s).Perm (filterTodos s) := by
  have hv : filteredAndSortedTodos s = (filterTodos s).mergeSort priorityLe := by
    simp [filteredAndSortedTodos, h]
  rw [hv]
  constructor
  · have htrans : ∀ a b c : Todo, priorityLe a b = true →
        priorityLe b c = true → priorityLe a c = true := by
      intro a b c hab hbc
      simp [priorityLe] at hab hbc ⊢
      omega
    have htotal : ∀ a b : Todo, (priorityLe a b || priorityLe b a) = true := by
      intro a b
      simp [priorityLe]
      omega
    have hs := @List.sorted_mergeSort Todo priorityLe htrans htotal
      (filterTodos s)
    exact hs.imp (fun hab => by simpa [priorityLe] using hab)
  · exact List.mergeSort_perm (filterTodos s) priorityLe

/-- Witness for C8 at a concrete sorted view. -/
theorem sorted_view_witness :
    sortState.sortByPriority = true ∧
    (filteredAndSortedTodos sortState).Perm (filterTodos sortState) :=
  ⟨by decide, (sorted_view_spec sortState (by decide)).2⟩

/-- C9: a failing Toggle, Delete or Save Edit (thrown request or non-2xx
response) leaves the whole state unchanged, the error string included; in
particular a delete answered 404 by the server is a local no-op. -/
theorem mutation_failure_noop (s : AppState) (todo : Todo) (id : Int)
    (res : SimpleOutcome) (h : res ≠ .ok) :
    toggleTodo s todo res = s ∧ deleteTodo s id res = s ∧
      (saveEdit s res).1 = s := by
  cases res
  case ok => exact absurd rfl h
  all_goals
    refine ⟨rfl, rfl, ?_⟩
    rcases hE : s.editingId with _ | i
    · simp [saveEdit, hE]
    · by_cases hi : i = 0 <;> simp [saveEdit, hE, hi]

/-- Witness for C9: a 404-style delete of an absent id changes nothing. -/
theorem mutation_failure_witness :
    SimpleOutcome.notOk ≠ SimpleOutcome.ok ∧
    deleteTodo oneState 999 .notOk = oneState :=
  ⟨by decide,
   (mutation_failure_noop oneState exTodo201 999 .notOk (by decide)).2.1⟩

/-- Witness for C10 with an item of id 0 under edit. -/
theorem saveEdit_falsy_guard_witness :
    editZeroState.editingId = some 0 ∧
    saveEdit editZeroState .ok = (editZeroState, none) :=
  ⟨by decide, saveEdit_falsy_guard editZeroState .ok (Or.inr (by decide))⟩

end TodoApp
